import Mathlib

/-
Verification of the per-conversation message lifecycle and dispatch engine
(conversation model and message model of a TypeScript messenger client).

The definitions below are a shallow embedding of the source:
  - MessageModel.*        embeds src/ts/models/message.ts
  - ConversationModel.*   embeds the conversation model source file
Machine integers are modelled as Nat (timestamps, counters); JavaScript
null/undefined slots are modelled as Option; the dynamic attribute bag of a
Backbone model is modelled as an explicit record holding the attributes the
claims touch. External collaborators (delivery gateway, persistence, storage
settings) are passed in as explicit parameters or outcome values.
-/

namespace LokiSpec

/-- A recorded send error, as stored on the message `errors` attribute.
JavaScript errors carry a `name`, an optional `number` (the recipient the
error is associated with) and a human readable `message`. -/
structure ErrorRec where
  name : String
  number : Option String
  message : String
deriving DecidableEq, Repr

/-- Direction of a message: the `type` attribute is either
the string incoming or the string outgoing in the source. -/
inductive MessageModelType where
  | incoming
  | outgoing
deriving DecidableEq, Repr

/-- Attributes of a MessageModel that the verified operations read or write.
Mirrors the attribute reads in src/ts/models/message.ts:
`type`, `errors`, `read_by`, `delivered`, `delivered_to`, `sent`, `sent_to`,
`calculatingPoW`, `expireTimer`, `expirationStartTimestamp`, `recipients`,
`unread`, `sentSync`, `synced`. -/
structure MessageState where
  type : MessageModelType
  errors : List ErrorRec
  read_by : List String
  delivered : Bool
  delivered_to : List String
  sent : Bool
  sent_to : List String
  calculatingPoW : Bool
  expireTimer : Nat
  expirationStartTimestamp : Option Nat
  recipients : List String
  unread : Bool
  sentSync : Bool
  synced : Bool
  sync : Bool
deriving DecidableEq, Repr

namespace MessageModel

/-- Embeds MessageModel.isOutgoing: `this.get(type) === outgoing`. -/
def isOutgoing (m : MessageState) : Bool :=
  m.type = MessageModelType.outgoing

/-- Embeds MessageModel.hasErrors: `_.size(this.get(errors)) > 0`. -/
def hasErrors (m : MessageState) : Bool :=
  m.errors.length > 0

/-- Embeds MessageModel.getMessagePropStatus. The read receipt setting
(`window.storage.get` of the read receipt setting key) is an external
storage flag, passed as the parameter `readReceiptSetting`. Returns the
derived status string, or none for the `return null` branch. -/
def getMessagePropStatus (readReceiptSetting : Bool) (m : MessageState) :
    Option String :=
  if hasErrors m then some "error"
  else if ¬isOutgoing m then none
  else if readReceiptSetting ∧ m.read_by.length > 0 then some "read"
  else if m.delivered ∨ m.delivered_to.length > 0 then some "delivered"
  else if m.sent ∨ m.sent_to.length > 0 then some "sent"
  else if m.calculatingPoW then some "pow"
  else some "sending"

/-- Embeds MessageModel.saveErrors: the provided errors (a single error is
wrapped into a one element array by the source) are concatenated in front of
the already recorded ones (`errors.concat(this.get(errors))`) and the result
is persisted. The `_.pick` projection keeps the fields our record already
holds. -/
def saveErrors (providedErrors : List ErrorRec) (m : MessageState) :
    MessageState :=
  { m with errors := providedErrors ++ m.errors }

/-- Lodash union of two string lists as used by `_.union(sentTo, [device])`:
keeps the elements of the first list and appends the elements of the second
list that are not already present. -/
def jsUnion (xs ys : List String) : List String :=
  xs ++ ys.filter (fun y => ¬xs.contains y)

/-- Embeds the attribute update of MessageModel.sendSyncMessage: in this
revision the actual multi device send is stubbed out in the source, but the
guard and the `sentSync` flag update remain. -/
def sendSyncMessage (m : MessageState) : MessageState :=
  if m.synced ∨ m.sentSync then m
  else { m with sentSync := true }

/-- Embeds the state update of MessageModel.handleMessageSentSuccess.
The source comment states the handler might be called several times for the
same message. `device` is the device the message was sent to,
`isOurDevice` reflects `UserUtils.isUsFromCache(sentMessage.device)`,
`isClosedGroupMessage` compares the encryption type, `isOpenGroupMessage`
reflects `sentMessage.group instanceof OpenGroup`, `hasDataMessage` tells
whether the decoded content carried a data message, and `now` is the
`Date.now()` value at the call. The push notification call has no effect on
the message attributes. -/
def handleMessageSentSuccess (device : String) (isOurDevice : Bool)
    (isClosedGroupMessage : Bool) (isOpenGroupMessage : Bool)
    (hasDataMessage : Bool) (now : Nat) (m : MessageState) :
    MessageState :=
  let shouldTriggerSyncMessage :=
    ¬isOurDevice ∧ ¬isClosedGroupMessage ∧ ¬m.synced ∧ ¬m.sentSync
  let shouldMarkMessageAsSynced := isOurDevice ∧ m.sentSync
  let isSessionOrClosedMessage := ¬isOpenGroupMessage
  let m1 :=
    if isSessionOrClosedMessage then
      let m0 :=
        if shouldTriggerSyncMessage then
          if hasDataMessage then sendSyncMessage m else m
        else if shouldMarkMessageAsSynced then { m with synced := true }
        else m
      { m0 with sent_to := jsUnion m0.sent_to [device] }
    else m
  { m1 with sent := true, expirationStartTimestamp := some now }

/-- Embeds the state update of MessageModel.handleMessageSentFailure: the
error is recorded through saveErrors, the `sentSync` flag is lowered for a
failed send to one of our own devices, then `sent` is set and
`expirationStartTimestamp` is set to `Date.now()` unconditionally. -/
def handleMessageSentFailure (error : ErrorRec) (isOurDevice : Bool)
    (now : Nat) (m : MessageState) : MessageState :=
  let m1 := saveErrors [error] m
  let m2 := if isOurDevice ∧ ¬m1.sync then { m1 with sentSync := false } else m1
  { m2 with sent := true, expirationStartTimestamp := some now }

/-- Embeds the attribute update of MessageModel.sendSyncMessageOnly: the
message is marked sent to our own key, `sent` is raised, the expiration
start timestamp is set to `Date.now()`, then sendSyncMessage runs. -/
def sendSyncMessageOnly (ourKey : String) (now : Nat) (m : MessageState) :
    MessageState :=
  sendSyncMessage
    { m with sent_to := [ourKey], sent := true,
             expirationStartTimestamp := some now }

/-- Embeds MessageModel.markRead (the per message markRead). `readAt` is the
optional read timestamp (`options.readAt`, possibly undefined) and `now` is
`Date.now()`. The expiration start timestamp is assigned only when an expire
timer is set and no start timestamp exists yet, to
`Math.min(Date.now(), readAt || Date.now())`. -/
def markRead (readAt : Option Nat) (now : Nat) (m : MessageState) :
    MessageState :=
  let m1 := { m with unread := false }
  if m1.expireTimer ≠ 0 ∧ m1.expirationStartTimestamp = none then
    { m1 with expirationStartTimestamp := some (min now (readAt.getD now)) }
  else m1

end MessageModel

/-- Outcome of a settled promise: fulfilled or rejected. A task wrapped by
`createTaskWithTimeout` always settles: a timeout is reported as a
rejection, so a timed out task is a task whose outcome is rejected. -/
inductive Settled where
  | fulfilled
  | rejected
deriving DecidableEq, Repr

namespace ConversationModel

/-- Embeds the promise chain built by ConversationModel.queueJob. Each call
does `this.pending = previous.then(taskWithTimeout, taskWithTimeout)`: the
same wrapped task is installed both as the fulfillment handler and as the
rejection handler of the previous promise, so it runs once the previous
promise settles, whichever way it settled. `tasks` lists the submitted tasks
in submission order, each given by the outcome it settles with when run;
`prev` is the outcome of the promise the next task is chained on
(`this.pending`, initially `Promise.resolve()`, which is fulfilled); `log`
accumulates the indices of the tasks that have started, in start order, and
`i` is the index of the next task. The two identical branches of the match
mirror the two handler slots of `.then`. -/
def runQueue : List Settled → Settled → List Nat → Nat → List Nat
  | [], _, log, _ => log
  | outcome :: rest, prev, log, i =>
    match prev with
    | Settled.fulfilled => runQueue rest outcome (log ++ [i]) (i + 1)
    | Settled.rejected => runQueue rest outcome (log ++ [i]) (i + 1)

end ConversationModel

/-- The stored conversation `type` attribute: the string private or the
string group. -/
inductive ConvType where
  | privateChat
  | groupChat
deriving DecidableEq, Repr

/-- Conversation attributes needed by the send and retry paths. `id` is the
conversation id, `isPublicChat` reflects `isPublic()` (the id matches the
publicChat prefix), `type` is the stored type attribute and `members` the
stored member list. -/
structure ConvInfo where
  id : String
  isPublicChat : Bool
  type : ConvType
  members : List String
deriving DecidableEq, Repr

/-- A dispatch handed to the delivery gateway by the retry and resend
paths: a full open group send, a sync only send to our own devices, a
direct send to one public key, or a closed group message sent individually
to one recipient. -/
inductive Dispatch where
  | openGroupSend
  | syncOnly (recipient : String)
  | toPubKey (recipient : String)
  | closedGroupSend (recipient : String)
deriving DecidableEq, Repr

/-- Recipients the dispatch targets individually; an open group send is
addressed to the whole group rather than to listed recipients. -/
def dispatchTargets : Dispatch → List String
  | Dispatch.openGroupSend => []
  | Dispatch.syncOnly r => [r]
  | Dispatch.toPubKey r => [r]
  | Dispatch.closedGroupSend r => [r]

/-- Lodash intersection as used by
`_.intersection(intendedRecipients, currentRecipients)`: the elements of the
first list that also occur in the second, in first list order. -/
def jsIntersection (xs ys : List String) : List String :=
  xs.filter (fun x => ys.contains x)

namespace ConversationModel

/-- Embeds ConversationModel.getRecipients: a private conversation has its
peer as sole recipient; a group conversation has its members without our
own number (`_.without(members, me)`). -/
def getRecipients (ourNumber : String) (conv : ConvInfo) : List String :=
  if conv.type = ConvType.privateChat then [conv.id]
  else conv.members.filter (fun p => p ≠ ourNumber)

end ConversationModel

namespace MessageModel

/-- Embeds the matching predicate of MessageModel.removeOutgoingErrors: an
error is removable when its `number` equals the requested recipient and its
`name` is MessageError, SendMessageNetworkError or OutgoingIdentityKeyError. -/
def outgoingErrorMatches (number : String) (e : ErrorRec) : Bool :=
  e.number = some number ∧
    (e.name = "MessageError" ∨ e.name = "SendMessageNetworkError" ∨
      e.name = "OutgoingIdentityKeyError")

/-- Embeds MessageModel.removeOutgoingErrors: `_.partition` splits the
recorded errors by the matching predicate, the non matching part is stored
back, and the first matching error (possibly undefined) is returned. -/
def removeOutgoingErrors (number : String) (m : MessageState) :
    MessageState × Option ErrorRec :=
  let part := m.errors.partition (outgoingErrorMatches number)
  ({ m with errors := part.2 }, part.1.head?)

/-- The outstanding recipient set computed by MessageModel.retrySend:
`_.intersection(intendedRecipients, currentRecipients)` filtered by
recipients not yet contained in the successful recipients
(`sent_to`). -/
def outstandingRecipients (ourNumber : String) (conv : ConvInfo)
    (m : MessageState) : List String :=
  (jsIntersection m.recipients
      (ConversationModel.getRecipients ourNumber conv)).filter
    (fun key => ¬m.sent_to.contains key)

/-- Embeds MessageModel.retrySend. `online` reflects
`window.textsecure.messaging`; `isUs` is `UserUtils.isUsFromCache`;
`ourNumber` is our own key; `uploadResult` is the outcome of the
`uploadData` collaborator call (its exception, when it throws); `now` is
`Date.now()`. Returns the updated message state and the dispatches handed
to the delivery gateway. The source clears `errors`, handles the public
conversation by an unconditional full group send, otherwise recomputes the
outstanding recipients as the intersection of intended and current
recipients minus the successful ones, refreshes persisted state without any
dispatch when that set is empty, collapses a sole outstanding own device to
a sync only send, sends to the single peer of a private conversation, or
sends the closed group message individually to each outstanding recipient.
Exceptions from upload are caught and recorded through saveErrors. -/
def retrySend (online : Bool) (isUs : String → Bool) (ourNumber : String)
    (now : Nat) (conv : ConvInfo) (uploadResult : Except ErrorRec Unit)
    (m : MessageState) : MessageState × List Dispatch :=
  if ¬online then (m, [])
  else
    let m1 := { m with errors := [] }
    if conv.isPublicChat then
      match uploadResult with
      | Except.error e => (saveErrors [e] m1, [])
      | Except.ok _ => (m1, [Dispatch.openGroupSend])
    else
      let recipients := outstandingRecipients ourNumber conv m1
      match recipients with
      | [] => (m1, [])
      | r :: rest =>
        match uploadResult with
        | Except.error e => (saveErrors [e] m1, [])
        | Except.ok _ =>
          if rest = [] ∧ isUs r then
            (sendSyncMessageOnly ourNumber now m1, [Dispatch.syncOnly r])
          else if conv.type = ConvType.privateChat then
            (m1, [Dispatch.toPubKey r])
          else
            (m1, recipients.map Dispatch.closedGroupSend)

/-- Embeds MessageModel.resend: removeOutgoingErrors runs first; when it
yields no matching error the function warns and returns without uploading
or dispatching anything. Otherwise the data is re uploaded and the message
is redispatched to that single recipient: a sync only send when the
recipient is one of our own devices, a direct send for a private
conversation, or a closed group message to that one recipient. Exceptions
from upload are caught and recorded through saveErrors. -/
def resend (number : String) (isUs : String → Bool) (ourNumber : String)
    (now : Nat) (conv : ConvInfo) (uploadResult : Except ErrorRec Unit)
    (m : MessageState) : MessageState × List Dispatch :=
  let r0 := removeOutgoingErrors number m
  match r0.2 with
  | none => (r0.1, [])
  | some _ =>
    match uploadResult with
    | Except.error e => (saveErrors [e] r0.1, [])
    | Except.ok _ =>
      if isUs number then
        (sendSyncMessageOnly ourNumber now r0.1, [Dispatch.syncOnly number])
      else if conv.type = ConvType.privateChat then
        (r0.1, [Dispatch.toPubKey number])
      else
        (r0.1, [Dispatch.closedGroupSend number])

end MessageModel

/-- The conversation kind as discriminated by the branch chain of
ConversationModel.sendMessageJob: `isPublic()`, then `isPrivate()`, then
`isMediumGroup()`, then `isClosedGroup()` (a legacy closed group), and
otherwise an invalid stored type. The cases are mutually exclusive in the
source because each branch returns. -/
inductive ConvKind where
  | publicGroup
  | privateChat
  | mediumGroup
  | legacyClosedGroup
  | invalidType
deriving DecidableEq, Repr

namespace ConversationModel

/-- Embeds the body of the try block of ConversationModel.sendMessageJob:
`uploadData` runs first and may throw; then one outbound payload is built
and awaited per destination kind. A legacy closed group raises an Error and
an invalid stored conversation type raises a TypeError; both are thrown
inside the try block. `sendResult` is the outcome of the awaited delivery
gateway call (`sendToGroup` or `sendToPubKey`). -/
def sendMessageJobBody (kind : ConvKind)
    (uploadResult : Except ErrorRec Unit)
    (sendResult : Except ErrorRec Unit) : Except ErrorRec Unit :=
  match uploadResult with
  | Except.error e => Except.error e
  | Except.ok _ =>
    match kind with
    | ConvKind.publicGroup => sendResult
    | ConvKind.privateChat => sendResult
    | ConvKind.mediumGroup => sendResult
    | ConvKind.legacyClosedGroup =>
      Except.error
        { name := "Error", number := none,
          message := "Legacy group are not supported anymore. You need to recreate this group." }
    | ConvKind.invalidType =>
      Except.error
        { name := "TypeError", number := none,
          message := "Invalid conversation type" }

/-- Embeds ConversationModel.sendMessageJob: the whole body runs inside a
try block whose catch clause records the thrown error on the message through
saveErrors and returns null, so the enqueued job itself always resolves.
The first component is the resulting message state, the second the outcome
of the job promise. -/
def sendMessageJob (kind : ConvKind) (uploadResult : Except ErrorRec Unit)
    (sendResult : Except ErrorRec Unit) (m : MessageState) :
    MessageState × Except ErrorRec Unit :=
  match sendMessageJobBody kind uploadResult sendResult with
  | Except.ok _ => (m, Except.ok ())
  | Except.error e => (MessageModel.saveErrors [e] m, Except.ok ())

end ConversationModel

/-- A persisted message row as seen by the conversation level markRead:
its receive time, unread flag, direction, sender (`source`, none when the
row is a local notification without sender), whether it carries recorded
errors, and whether its text mentions our own number (the
`text.indexOf(@ourNumber)` check, abstracted to a flag). -/
structure MsgRec where
  id : Nat
  received_at : Nat
  unread : Bool
  type : MessageModelType
  source : Option String
  hasErrors : Bool
  mentionsUs : Bool
deriving DecidableEq, Repr

/-- Conversation state read and written by the conversation level markRead:
the persisted message rows of the conversation, the cached `unreadCount`
attribute and the `mentionedUs` flag. -/
structure ConvReadState where
  messages : List MsgRec
  unreadCount : Nat
  mentionedUs : Bool
deriving DecidableEq, Repr

namespace ConversationModel

/-- The `read` list computed by ConversationModel.markRead: the unread rows
received at or before the threshold (`oldUnread`) that carry a sender
(`read = _.filter(read, m => Boolean(m.sender))`). -/
def newlyRead (newestUnreadDate : Nat) (st : ConvReadState) : List MsgRec :=
  ((st.messages.filter (fun m => m.unread)).filter
      (fun m => m.received_at ≤ newestUnreadDate)).filter
    (fun m => m.source ≠ none)

/-- The persisted message rows after each old unread row was marked read and
committed by the per message markRead calls inside
ConversationModel.markRead. -/
def markedMessages (newestUnreadDate : Nat) (st : ConvReadState) :
    List MsgRec :=
  st.messages.map (fun m =>
    if m.unread ∧ m.received_at ≤ newestUnreadDate then
      { m with unread := false }
    else m)

/-- The authoritative unread count (`getUnreadCount`, the persistence query
counting unread rows of the conversation), evaluated after the markings of
this markRead call were committed. -/
def realUnreadCount (newestUnreadDate : Nat) (st : ConvReadState) : Nat :=
  ((markedMessages newestUnreadDate st).filter (fun m => m.unread)).length

/-- Embeds ConversationModel.markRead. `getUnread` fetches the unread rows;
those received at or before `newestUnreadDate` are marked read one by one
(each marked row is committed); `read` keeps the marked rows that have a
sender; `getUnreadCount` is the authoritative unread query evaluated after
the markings were committed. When nothing with a sender was newly read the
cached counter is compared against `read.length` (which is zero in that
branch) and reset to zero when it differs. Otherwise the counter is set to
the authoritative count and the mention flag is cleared unless a still
unread incoming row past the threshold mentions us. Read receipt sending
only emits to the gateway and does not change this state. -/
def markRead (newestUnreadDate : Nat) (st : ConvReadState) : ConvReadState :=
  let unreadMessages := st.messages.filter (fun m => m.unread)
  let messages1 := markedMessages newestUnreadDate st
  let read := newlyRead newestUnreadDate st
  if read.length = 0 then
    if st.unreadCount ≠ read.length then
      { st with messages := messages1, unreadCount := 0 }
    else
      { st with messages := messages1 }
  else
    let incomingUnread :=
      unreadMessages.filter (fun m => m.type = MessageModelType.incoming)
    let stillUnread :=
      incomingUnread.filter (fun m => m.received_at > newestUnreadDate)
    let mentionRead := ¬stillUnread.any (fun m => m.mentionsUs)
    let st1 :=
      { st with messages := messages1,
                unreadCount := realUnreadCount newestUnreadDate st }
    if mentionRead then { st1 with mentionedUs := false } else st1

end ConversationModel

/-- Conversation state touched by updateExpirationTimer: the stored
`expireTimer` attribute, a number of seconds or null. The attribute default
fills it with 0. -/
structure ConvTimerState where
  expireTimer : Option Nat
deriving DecidableEq, Repr

/-- Result of one updateExpirationTimer call: the new conversation state,
whether a changed expire timer was persisted, and how many timer update
system messages were synthesized and added to the conversation. -/
structure TimerUpdateResult where
  state : ConvTimerState
  persistedTimerChange : Bool
  systemMessages : Nat
deriving DecidableEq, Repr

namespace ConversationModel

/-- Embeds the normalization at the top of
ConversationModel.updateExpirationTimer: a falsy provided value (`0`, null
or undefined) becomes null. -/
def normalizeExpireTimer (providedExpireTimer : Option Nat) : Option Nat :=
  match providedExpireTimer with
  | none => none
  | some 0 => none
  | some n => some n

/-- Guard under which updateExpirationTimer returns null without doing
anything: the normalized value strictly equals the stored attribute, or
both the normalized value and the stored attribute are falsy. -/
def expireTimerUnchanged (providedExpireTimer : Option Nat)
    (st : ConvTimerState) : Prop :=
  st.expireTimer = normalizeExpireTimer providedExpireTimer ∨
    (normalizeExpireTimer providedExpireTimer = none ∧
      (st.expireTimer = none ∨ st.expireTimer = some 0))

instance (providedExpireTimer : Option Nat) (st : ConvTimerState) :
    Decidable (expireTimerUnchanged providedExpireTimer st) := by
  unfold expireTimerUnchanged
  infer_instance

/-- Embeds ConversationModel.updateExpirationTimer up to the point where the
change is persisted and the local system message recording the change is
synthesized. The call returns null immediately when the normalized value
strictly equals the stored one, or when both are falsy. Otherwise the new
timer is persisted and exactly one system message is created. The outbound
propagation that follows does not change the conversation state. -/
def updateExpirationTimer (providedExpireTimer : Option Nat)
    (st : ConvTimerState) : TimerUpdateResult :=
  if expireTimerUnchanged providedExpireTimer st then
    { state := st, persistedTimerChange := false, systemMessages := 0 }
  else
    { state := { st with
        expireTimer := normalizeExpireTimer providedExpireTimer },
      persistedTimerChange := true, systemMessages := 1 }

end ConversationModel

/-- Typing presence state of a conversation: the remote typing timer (a
private field, not persisted; some deadline means the fifteen second clear
timer is armed, and the timer being armed is what `isTyping` projects), and
the count of conversation commits (each commit persists the conversation
and fires the change notification). -/
structure TypingState where
  typingTimer : Option Nat
  commits : Nat
deriving DecidableEq, Repr

namespace ConversationModel

/-- Embeds ConversationModel.notifyTyping. Typing signals from our own
devices are ignored, as are typing signals for non private conversations.
Otherwise the running timer is cleared; an isTyping signal arms a fresh
fifteen second timer and commits only when the sender was not already
marked typing, and a stopped typing signal clears the presence immediately
and commits only when the sender was marked typing. -/
def notifyTyping (senderIsUs : Bool) (isPrivate : Bool) (isTyping : Bool)
    (now : Nat) (st : TypingState) : TypingState :=
  if senderIsUs then st
  else if ¬isPrivate then st
  else
    let wasTyping := st.typingTimer.isSome
    if isTyping then
      { typingTimer := some (now + 15 * 1000),
        commits := if ¬wasTyping then st.commits + 1 else st.commits }
    else
      { typingTimer := none,
        commits := if wasTyping then st.commits + 1 else st.commits }

/-- Embeds ConversationModel.clearContactTypingTimer, the callback of the
fifteen second timeout: when a timer is armed it is cleared and the state
change is committed; a late fire with no armed timer is a no op. -/
def clearContactTypingTimer (st : TypingState) : TypingState :=
  if st.typingTimer.isSome then
    { typingTimer := none, commits := st.commits + 1 }
  else st

end ConversationModel

/-
Theorems settling the claims. Each claim has exactly one theorem, with a
witness or counterexample where the claim outcome needs one.
-/

/-- Helper: running the queue appends the indices of all submitted tasks,
in submission order, to the log, whatever the outcome of the promise the
first task is chained on and whatever each task settles with. -/
theorem runQueue_log (tasks : List Settled) :
    ∀ (prev : Settled) (log : List Nat) (i : Nat),
      ConversationModel.runQueue tasks prev log i =
        log ++ List.range' i tasks.length := by
  induction tasks with
  | nil =>
    intro prev log i
    cases prev <;> simp [ConversationModel.runQueue]
  | cons o rest ih =>
    intro prev log i
    cases prev <;>
      simp [ConversationModel.runQueue, ih, List.range'_succ]

/-- C1: tasks submitted through queueJob start strictly in submission order
(the start log is exactly the submission indices zero to n minus one, in
order), each task starts only after the promise of the previous task has
settled (the chain threads each settled outcome into the handler slots of
the next task), and a rejected previous task, which includes a timed out
one, does not prevent the next task from running: the log is the full index
range for every assignment of task outcomes. -/
theorem queueJob_serializes_tasks_in_submission_order
    (tasks : List Settled) :
    ConversationModel.runQueue tasks Settled.fulfilled [] 0 =
      List.range tasks.length := by
  rw [runQueue_log tasks Settled.fulfilled [] 0, List.range_eq_range']
  simp

/-- C5: the derived message status follows the fixed priority of
getMessagePropStatus: error exactly when the errors list is non empty,
overriding everything below; otherwise incoming messages have no outbound
status; otherwise read exactly when the read receipt setting is enabled and
read by is non empty; else delivered on a delivered flag or recipient; else
sent on a sent flag or recipient; else the transient pow while computing
proof of work; else sending. -/
theorem getMessagePropStatus_fixed_priority (setting : Bool)
    (m : MessageState) :
    (MessageModel.getMessagePropStatus setting m = some "error" ↔
      m.errors ≠ []) ∧
    (MessageModel.getMessagePropStatus setting m = none ↔
      m.errors = [] ∧ m.type = MessageModelType.incoming) ∧
    (MessageModel.getMessagePropStatus setting m = some "read" ↔
      m.errors = [] ∧ m.type = MessageModelType.outgoing ∧
        setting = true ∧ m.read_by ≠ []) ∧
    (MessageModel.getMessagePropStatus setting m = some "delivered" ↔
      m.errors = [] ∧ m.type = MessageModelType.outgoing ∧
        ¬(setting = true ∧ m.read_by ≠ []) ∧
        (m.delivered = true ∨ m.delivered_to ≠ [])) ∧
    (MessageModel.getMessagePropStatus setting m = some "sent" ↔
      m.errors = [] ∧ m.type = MessageModelType.outgoing ∧
        ¬(setting = true ∧ m.read_by ≠ []) ∧
        ¬(m.delivered = true ∨ m.delivered_to ≠ []) ∧
        (m.sent = true ∨ m.sent_to ≠ [])) ∧
    (MessageModel.getMessagePropStatus setting m = some "pow" ↔
      m.errors = [] ∧ m.type = MessageModelType.outgoing ∧
        ¬(setting = true ∧ m.read_by ≠ []) ∧
        ¬(m.delivered = true ∨ m.delivered_to ≠ []) ∧
        ¬(m.sent = true ∨ m.sent_to ≠ []) ∧
        m.calculatingPoW = true) ∧
    (MessageModel.getMessagePropStatus setting m = some "sending" ↔
      m.errors = [] ∧ m.type = MessageModelType.outgoing ∧
        ¬(setting = true ∧ m.read_by ≠ []) ∧
        ¬(m.delivered = true ∨ m.delivered_to ≠ []) ∧
        ¬(m.sent = true ∨ m.sent_to ≠ []) ∧
        m.calculatingPoW = false) := by
  obtain ⟨ty, errs, rb, dl, dlt, snt, sntTo, pow, et, est, rcp, ur, ss, sy, sc⟩ := m
  unfold MessageModel.getMessagePropStatus MessageModel.hasErrors
    MessageModel.isOutgoing
  cases ty <;> cases pow <;>
    split_ifs <;>
      simp_all [List.length_pos]

/-- An outgoing message that has reached the derived status read: the read
receipt setting is on, one recipient is recorded in read by, and no error
is recorded yet. -/
def readMessageExample : MessageState :=
  { type := MessageModelType.outgoing
    errors := []
    read_by := ["recipientA"]
    delivered := false
    delivered_to := []
    sent := true
    sent_to := ["recipientA"]
    calculatingPoW := false
    expireTimer := 0
    expirationStartTimestamp := none
    recipients := ["recipientA", "recipientB"]
    unread := false
    sentSync := false
    synced := false
    sync := false }

/-- A delivery failure recorded for the other recipient. -/
def deliveryFailureExample : ErrorRec :=
  { name := "SendMessageNetworkError"
    number := some "recipientB"
    message := "Network is not available" }

/-- C2 counterexample: a message whose derived status reached read drops
back to error as soon as a delivery failure for another recipient is
appended to its errors list, because getMessagePropStatus checks hasErrors
before the read watermark. -/
theorem status_regresses_from_read_to_error_on_failure :
    MessageModel.getMessagePropStatus true readMessageExample =
        some "read" ∧
      MessageModel.getMessagePropStatus true
          (MessageModel.saveErrors [deliveryFailureExample]
            readMessageExample) =
        some "error" ∧
      some "error" ≠ some "read" := by
  refine ⟨rfl, rfl, ?_⟩
  decide

/-- C2 amended: recording a delivery failure always moves the derived
status to error, even when the message already reached read: the error
check overrides the read watermark, so the derived status is not monotone
along sent, delivered, read once an error is recorded. -/
theorem saveErrors_overrides_read_watermark (setting : Bool)
    (m : MessageState) (es : List ErrorRec) (h : es ≠ []) :
    MessageModel.getMessagePropStatus setting
        (MessageModel.saveErrors es m) = some "error" := by
  unfold MessageModel.getMessagePropStatus MessageModel.hasErrors
    MessageModel.saveErrors
  cases es with
  | nil => exact absurd rfl h
  | cons e rest => simp

/-- C2 witness: the amended theorem applied at the concrete read message
and the concrete delivery failure. -/
theorem saveErrors_overrides_read_watermark_witness :
    MessageModel.getMessagePropStatus true
        (MessageModel.saveErrors [deliveryFailureExample]
          readMessageExample) = some "error" :=
  saveErrors_overrides_read_watermark true readMessageExample
    [deliveryFailureExample] (by simp)

/-- An outgoing message with a positive expire timer whose expiration start
timestamp has not been assigned yet. -/
def expiringMessageExample : MessageState :=
  { type := MessageModelType.outgoing
    errors := []
    read_by := []
    delivered := false
    delivered_to := []
    sent := false
    sent_to := []
    calculatingPoW := false
    expireTimer := 5
    expirationStartTimestamp := none
    recipients := ["recipientA"]
    unread := false
    sentSync := false
    synced := false
    sync := false }

/-- The expiring message after its start timestamp was assigned at time 40. -/
def startedMessageExample : MessageState :=
  { expiringMessageExample with expirationStartTimestamp := some 40 }

/-- C3 counterexample: handling a repeated delivery success for the same
message rewrites the already assigned expiration start timestamp, from 50
to 100, so the timestamp is not assigned exactly once. -/
theorem repeated_sent_success_rewrites_expiration_start :
    (MessageModel.handleMessageSentSuccess "recipientA" false false false
          true 50 expiringMessageExample).expirationStartTimestamp =
        some 50 ∧
      (MessageModel.handleMessageSentSuccess "recipientA" false false false
          true 100
          (MessageModel.handleMessageSentSuccess "recipientA" false false
            false true 50
            expiringMessageExample)).expirationStartTimestamp =
        some 100 ∧
      some (100 : Nat) ≠ some (50 : Nat) := by
  refine ⟨rfl, rfl, by decide⟩

/-- C3 amended: the incoming path assigns the expiration start at most
once: markRead assigns it only when a positive timer is set and no start
exists, and never overwrites an existing start. The outgoing handlers,
however, rewrite it to the current clock value on every delivery success or
failure handling for the same message; under a monotone clock the stored
value therefore never decreases, but it is not assigned exactly once. -/
theorem expiration_start_markRead_once_but_handlers_rewrite
    (m : MessageState) (readAt : Option Nat) (dev : String)
    (isOur isCG isOG hasDM : Bool) (e : ErrorRec) (t now : Nat)
    (hset : m.expirationStartTimestamp = some t) (hmono : t ≤ now) :
    (MessageModel.markRead readAt now m).expirationStartTimestamp =
        some t ∧
      (∀ m2 : MessageState, m2.expirationStartTimestamp = none →
        m2.expireTimer ≠ 0 →
        (MessageModel.markRead readAt now m2).expirationStartTimestamp =
          some (min now (readAt.getD now))) ∧
      (MessageModel.handleMessageSentSuccess dev isOur isCG isOG hasDM now
          m).expirationStartTimestamp = some now ∧
      (MessageModel.handleMessageSentFailure e isOur now
          m).expirationStartTimestamp = some now ∧
      (∀ v, (MessageModel.handleMessageSentSuccess dev isOur isCG isOG
          hasDM now m).expirationStartTimestamp = some v → t ≤ v) := by
  refine ⟨?_, ?_, ?_, ?_, ?_⟩
  · simp [MessageModel.markRead, hset]
  · intro m2 hnone hpos
    simp [MessageModel.markRead, hnone, hpos]
  · rfl
  · rfl
  · intro v hv
    have h3 : (MessageModel.handleMessageSentSuccess dev isOur isCG isOG
        hasDM now m).expirationStartTimestamp = some now := rfl
    rw [h3] at hv
    have hnv : now = v := Option.some.inj hv
    omega

/-- C3 witness: the amended theorem applied at the started message, with
the clock at 50. -/
theorem expiration_start_markRead_once_witness :
    (MessageModel.markRead none 50
        startedMessageExample).expirationStartTimestamp = some 40 :=
  (expiration_start_markRead_once_but_handlers_rewrite
      startedMessageExample none "recipientA" false false false true
      deliveryFailureExample 40 50 rfl (by decide)).1

/-- Helper: every row still unread after the markings of a markRead call
was received after the threshold. -/
theorem markedMessages_unread_late (t : Nat) (st : ConvReadState) :
    ∀ m ∈ ConversationModel.markedMessages t st, m.unread = true →
      t < m.received_at := by
  intro m hm hu
  rcases List.mem_map.mp hm with ⟨a, _, rfl⟩
  by_cases h : a.unread = true ∧ a.received_at ≤ t
  · rw [if_pos h] at hu
    simp at hu
  · rw [if_neg h] at hu ⊢
    push_neg at h
    exact h hu

/-- Helper: markRead always stores the marked rows, whichever branch it
takes. -/
theorem markRead_messages_eq (t : Nat) (st : ConvReadState) :
    (ConversationModel.markRead t st).messages =
      ConversationModel.markedMessages t st := by
  unfold ConversationModel.markRead
  dsimp only
  split_ifs <;> rfl

/-- Helper: a second markRead with the same threshold always ends with a
zero unread counter: the first call marked every unread row at or before
the threshold, so the second call finds nothing newly read and resets a non
zero cached counter to zero. -/
theorem markRead_twice_unreadCount_zero (t : Nat) (st : ConvReadState) :
    (ConversationModel.markRead t
        (ConversationModel.markRead t st)).unreadCount = 0 := by
  set st1 := ConversationModel.markRead t st with hst1
  have hlate : ∀ m ∈ st1.messages, m.unread = true → t < m.received_at := by
    rw [hst1, markRead_messages_eq]
    exact markedMessages_unread_late t st
  have hempty : ConversationModel.newlyRead t st1 = [] := by
    unfold ConversationModel.newlyRead
    have h2 : (st1.messages.filter (fun m => m.unread)).filter
        (fun m => m.received_at ≤ t) = [] := by
      refine List.filter_eq_nil_iff.mpr ?_
      intro a ha
      have hmem := List.mem_filter.mp ha
      have hgt := hlate a hmem.1 (by simpa using hmem.2)
      simp
      omega
    rw [h2]
    rfl
  unfold ConversationModel.markRead
  rw [hempty]
  simp only [List.length_nil]
  split_ifs <;> simp_all

/-- C4 counterexample data: two unread incoming rows with a sender, one
received at 1 and one at 10, with a cached unread counter of 2. -/
def unreadEarlyExample : MsgRec :=
  { id := 1, received_at := 1, unread := true
    type := MessageModelType.incoming, source := some "senderA"
    hasErrors := false, mentionsUs := false }

/-- The later unread incoming row of the C4 counterexample data. -/
def unreadLateExample : MsgRec :=
  { id := 2, received_at := 10, unread := true
    type := MessageModelType.incoming, source := some "senderA"
    hasErrors := false, mentionsUs := false }

/-- The conversation of the C4 counterexample data. -/
def convReadExample : ConvReadState :=
  { messages := [unreadEarlyExample, unreadLateExample]
    unreadCount := 2, mentionedUs := false }

/-- C4 counterexample: with one unread row before the threshold and one
after it, the first markRead sets the counter to the authoritative value 1,
but a second markRead with the same threshold finds nothing newly read and
forces the counter to 0, so two calls do not leave the same final unread
count as one call. -/
theorem markRead_same_threshold_twice_changes_count :
    (ConversationModel.markRead 5 convReadExample).unreadCount = 1 ∧
      (ConversationModel.markRead 5
          (ConversationModel.markRead 5 convReadExample)).unreadCount = 0 ∧
      (1 : Nat) ≠ 0 := by
  refine ⟨by decide, by decide, by decide⟩

/-- C4 amended: when at least one unread row with a sender lies at or
before the threshold, markRead sets the unread counter to the value of the
authoritative unread query evaluated after the markings, rather than
decrementing it; when no such row exists it instead forces a non zero
cached counter to zero. Consequently markRead is not idempotent: a second
call with the same threshold always leaves a zero counter, even when
unread rows past the threshold remain. -/
theorem markRead_counter_from_query_but_not_idempotent (t : Nat)
    (st : ConvReadState) :
    (ConversationModel.newlyRead t st ≠ [] →
      (ConversationModel.markRead t st).unreadCount =
        ConversationModel.realUnreadCount t st) ∧
      (ConversationModel.newlyRead t st = [] → st.unreadCount ≠ 0 →
        (ConversationModel.markRead t st).unreadCount = 0) ∧
      (ConversationModel.markRead t
          (ConversationModel.markRead t st)).unreadCount = 0 := by
  refine ⟨?_, ?_, markRead_twice_unreadCount_zero t st⟩
  · intro h
    unfold ConversationModel.markRead
    have hlen : (ConversationModel.newlyRead t st).length ≠ 0 := by
      simpa [List.length_eq_zero] using h
    rw [if_neg hlen]
    dsimp only
    split_ifs <;> rfl
  · intro h hc
    unfold ConversationModel.markRead
    rw [h]
    simp only [List.length_nil, if_true]
    rw [if_pos hc]

/-- C4 witness: the amended theorem applied at the concrete conversation
with threshold 5: the first call stores the authoritative count. -/
theorem markRead_counter_from_query_witness :
    (ConversationModel.markRead 5 convReadExample).unreadCount =
      ConversationModel.realUnreadCount 5 convReadExample :=
  (markRead_counter_from_query_but_not_idempotent 5 convReadExample).1
    (by decide)

/-- Helper: every recipient in the outstanding set of retrySend is absent
from the successful recipients already recorded on the message. -/
theorem outstanding_not_in_sent_to (ourNumber : String) (conv : ConvInfo)
    (m : MessageState) :
    ∀ r ∈ MessageModel.outstandingRecipients ourNumber conv m,
      r ∉ m.sent_to := by
  intro r hr
  have h2 := (List.mem_filter.mp hr).2
  simpa using h2

/-- A public conversation whose message has an empty outstanding set. -/
def publicConvExample : ConvInfo :=
  { id := "publicChat:1@chat.example.test", isPublicChat := true
    type := ConvType.groupChat, members := [] }

/-- An outgoing message of the public conversation with no recipient left
outstanding. -/
def publicSentMessageExample : MessageState :=
  { type := MessageModelType.outgoing
    errors := []
    read_by := []
    delivered := false
    delivered_to := []
    sent := true
    sent_to := []
    calculatingPoW := false
    expireTimer := 0
    expirationStartTimestamp := none
    recipients := []
    unread := false
    sentSync := false
    synced := false
    sync := false }

/-- C6 counterexample: for a public conversation retrySend dispatches a
full open group send before ever computing the outstanding set, so a
dispatch happens even though the outstanding set is empty, contradicting
the claim that an empty outstanding set leads to no dispatch at all. -/
theorem retrySend_public_dispatches_despite_empty_outstanding :
    MessageModel.outstandingRecipients "ourKey" publicConvExample
        publicSentMessageExample = [] ∧
      (MessageModel.retrySend true (fun _ => false) "ourKey" 1000
          publicConvExample (Except.ok ()) publicSentMessageExample).2 =
        [Dispatch.openGroupSend] ∧
      [Dispatch.openGroupSend] ≠ ([] : List Dispatch) := by
  refine ⟨rfl, rfl, by decide⟩

/-- C6 amended: for every message in a non public conversation, retrySend
dispatches only to recipients of the outstanding set, which excludes every
recipient already recorded in the successful recipients, and performs no
dispatch at all when the outstanding set is empty. For a public
conversation, retrySend instead always redispatches the whole open group
message. -/
theorem retrySend_nonpublic_targets_only_outstanding (online : Bool)
    (isUs : String → Bool) (ourNumber : String) (now : Nat)
    (conv : ConvInfo) (u : Except ErrorRec Unit) (m : MessageState)
    (hpub : conv.isPublicChat = false) :
    (∀ d ∈ (MessageModel.retrySend online isUs ourNumber now conv u m).2,
      ∀ r ∈ dispatchTargets d,
        r ∈ MessageModel.outstandingRecipients ourNumber conv m ∧
          r ∉ m.sent_to) ∧
      (MessageModel.outstandingRecipients ourNumber conv m = [] →
        (MessageModel.retrySend online isUs ourNumber now conv u m).2 =
          []) := by
  have houts : MessageModel.outstandingRecipients ourNumber conv
      { m with errors := [] } =
      MessageModel.outstandingRecipients ourNumber conv m := rfl
  refine ⟨?_, ?_⟩
  · intro d hd r hrd
    have hmem : r ∈ MessageModel.outstandingRecipients ourNumber conv m := by
      cases online with
      | false => simp [MessageModel.retrySend] at hd
      | true =>
        cases hrec : MessageModel.outstandingRecipients ourNumber conv m with
        | nil => simp [MessageModel.retrySend, hpub, houts, hrec] at hd
        | cons r0 rest =>
          cases u with
          | error e =>
            simp [MessageModel.retrySend, hpub, houts, hrec] at hd
          | ok _ =>
            simp only [MessageModel.retrySend, hpub, houts, hrec] at hd
            simp at hd
            split_ifs at hd with h1 h2
            · simp at hd
              subst hd
              simp [dispatchTargets] at hrd
              rw [hrd]
              exact List.mem_cons_self _ _
            · simp at hd
              subst hd
              simp [dispatchTargets] at hrd
              rw [hrd]
              exact List.mem_cons_self _ _
            · replace hd : d ∈
                  Dispatch.closedGroupSend r0 ::
                    List.map Dispatch.closedGroupSend rest := hd
              rcases List.mem_cons.mp hd with hd | hd
              · subst hd
                simp [dispatchTargets] at hrd
                rw [hrd]
                exact List.mem_cons_self _ _
              · rcases List.mem_map.mp hd with ⟨a, ha, rfl⟩
                simp [dispatchTargets] at hrd
                rw [hrd]
                exact List.mem_cons_of_mem _ ha
    exact ⟨hmem, outstanding_not_in_sent_to ourNumber conv m r hmem⟩
  · intro hout
    cases online with
    | false => simp [MessageModel.retrySend]
    | true => simp [MessageModel.retrySend, hpub, houts, hout]

/-- C6 witness: the amended theorem applied at a concrete private
conversation whose single peer already received the message: the
outstanding set is empty and retrySend dispatches nothing. -/
theorem retrySend_nonpublic_witness :
    (MessageModel.retrySend true (fun _ => false) "ourKey" 1000
        { id := "peerA", isPublicChat := false
          type := ConvType.privateChat, members := [] }
        (Except.ok ())
        { publicSentMessageExample with
            recipients := ["peerA"], sent_to := ["peerA"] }).2 = [] :=
  (retrySend_nonpublic_targets_only_outstanding true (fun _ => false)
      "ourKey" 1000
      { id := "peerA", isPublicChat := false
        type := ConvType.privateChat, members := [] }
      (Except.ok ())
      { publicSentMessageExample with
          recipients := ["peerA"], sent_to := ["peerA"] }
      rfl).2 (by decide)

/-- C7: updateExpirationTimer is a complete no op when the provided value
equals the stored timer, including the case where a falsy provided value
(zero, null or undefined) meets a falsy stored timer: no change is
persisted and no system message is synthesized. When the value differs,
exactly one change is persisted and exactly one system message is created.
Hence the second of two consecutive calls with the same provided value is
always a complete no op. -/
theorem updateExpirationTimer_equal_value_noop (provided : Option Nat)
    (st : ConvTimerState) :
    (ConversationModel.expireTimerUnchanged provided st →
      ConversationModel.updateExpirationTimer provided st =
        { state := st, persistedTimerChange := false,
          systemMessages := 0 }) ∧
      (¬ConversationModel.expireTimerUnchanged provided st →
        (ConversationModel.updateExpirationTimer provided
              st).persistedTimerChange = true ∧
          (ConversationModel.updateExpirationTimer provided
              st).systemMessages = 1) ∧
      ConversationModel.updateExpirationTimer provided
          (ConversationModel.updateExpirationTimer provided st).state =
        { state := (ConversationModel.updateExpirationTimer provided
            st).state,
          persistedTimerChange := false, systemMessages := 0 } := by
  refine ⟨?_, ?_, ?_⟩
  · intro h
    unfold ConversationModel.updateExpirationTimer
    rw [if_pos h]
  · intro h
    unfold ConversationModel.updateExpirationTimer
    rw [if_neg h]
    exact ⟨rfl, rfl⟩
  · by_cases h : ConversationModel.expireTimerUnchanged provided st
    · have h1 : ConversationModel.updateExpirationTimer provided st =
          { state := st, persistedTimerChange := false,
            systemMessages := 0 } := by
        unfold ConversationModel.updateExpirationTimer
        rw [if_pos h]
      rw [h1]
      unfold ConversationModel.updateExpirationTimer
      rw [if_pos h]
    · have h1 : (ConversationModel.updateExpirationTimer provided
          st).state =
          { st with expireTimer :=
              ConversationModel.normalizeExpireTimer provided } := by
        unfold ConversationModel.updateExpirationTimer
        rw [if_neg h]
      rw [h1]
      have h2 : ConversationModel.expireTimerUnchanged provided
          { st with expireTimer :=
              ConversationModel.normalizeExpireTimer provided } :=
        Or.inl rfl
      unfold ConversationModel.updateExpirationTimer
      rw [if_pos h2]

/-- C7 witness: the theorem applied with a provided value of zero on a
conversation whose stored timer is the zero default: the call is a no op. -/
theorem updateExpirationTimer_equal_value_noop_witness :
    ConversationModel.updateExpirationTimer (some 0)
        { expireTimer := some 0 } =
      { state := { expireTimer := some 0 }, persistedTimerChange := false,
        systemMessages := 0 } :=
  (updateExpirationTimer_equal_value_noop (some 0)
      { expireTimer := some 0 }).1 (Or.inr ⟨rfl, Or.inr rfl⟩)

/-- The message handed to the queued send job in the C8 witness. -/
def jobMessageExample : MessageState :=
  { type := MessageModelType.outgoing
    errors := []
    read_by := []
    delivered := false
    delivered_to := []
    sent := false
    sent_to := []
    calculatingPoW := false
    expireTimer := 0
    expirationStartTimestamp := none
    recipients := ["memberA"]
    unread := false
    sentSync := false
    synced := false
    sync := false }

/-- The error thrown by sendMessageJob for a legacy closed group. -/
def legacyGroupErrorExample : ErrorRec :=
  { name := "Error", number := none
    message := "Legacy group are not supported anymore. You need to recreate this group." }

/-- C8: the queued send job always resolves normally, whatever the upload
and dispatch outcomes are: any exception thrown inside the job body is
caught, recorded on the errors list of the message, and surfaces only
through the derived error status; it never propagates out of the job, so
nothing can reach the caller of sendMessage, which already returned. -/
theorem sendMessageJob_catches_all_dispatch_errors (kind : ConvKind)
    (u s : Except ErrorRec Unit) (m : MessageState) (setting : Bool) :
    (ConversationModel.sendMessageJob kind u s m).2 = Except.ok () ∧
      (∀ e, ConversationModel.sendMessageJobBody kind u s =
          Except.error e →
        e ∈ (ConversationModel.sendMessageJob kind u s m).1.errors ∧
          MessageModel.getMessagePropStatus setting
              (ConversationModel.sendMessageJob kind u s m).1 =
            some "error") := by
  constructor
  · unfold ConversationModel.sendMessageJob
    cases ConversationModel.sendMessageJobBody kind u s <;> rfl
  · intro e he
    unfold ConversationModel.sendMessageJob
    rw [he]
    constructor
    · simp [MessageModel.saveErrors]
    · simp [MessageModel.getMessagePropStatus, MessageModel.hasErrors,
        MessageModel.saveErrors]

/-- C8 witness: the theorem applied at the legacy closed group branch,
whose body throws: the job still resolves normally and the thrown error is
recorded on the message. -/
theorem sendMessageJob_catches_witness :
    (ConversationModel.sendMessageJob ConvKind.legacyClosedGroup
          (Except.ok ()) (Except.ok ()) jobMessageExample).2 =
        Except.ok () ∧
      legacyGroupErrorExample ∈
        (ConversationModel.sendMessageJob ConvKind.legacyClosedGroup
            (Except.ok ()) (Except.ok ()) jobMessageExample).1.errors :=
  ⟨(sendMessageJob_catches_all_dispatch_errors ConvKind.legacyClosedGroup
      (Except.ok ()) (Except.ok ()) jobMessageExample true).1,
    ((sendMessageJob_catches_all_dispatch_errors ConvKind.legacyClosedGroup
        (Except.ok ()) (Except.ok ()) jobMessageExample true).2
      legacyGroupErrorExample rfl).1⟩

/-- C9: for a remote typing notification on a private conversation, a
commit (the persistence and notification event) happens exactly when the
typing flag flips: an isTyping signal commits only when the sender was not
already marked typing, and a stop signal commits only when the sender was
marked typing. A repeated isTyping refresh restarts the fifteen second
clear deadline without committing, and a stop signal clears the typing
presence immediately. -/
theorem notifyTyping_commits_only_on_edges (isTyping : Bool) (now : Nat)
    (st : TypingState) :
    ((ConversationModel.notifyTyping false true isTyping now st).commits =
        st.commits + 1 ↔ st.typingTimer.isSome ≠ isTyping) ∧
      ((ConversationModel.notifyTyping false true isTyping now
          st).commits = st.commits ↔ st.typingTimer.isSome = isTyping) ∧
      (isTyping = true →
        (ConversationModel.notifyTyping false true isTyping now
            st).typingTimer = some (now + 15 * 1000)) ∧
      (isTyping = false →
        (ConversationModel.notifyTyping false true isTyping now
            st).typingTimer = none) := by
  cases isTyping <;> cases hT : st.typingTimer <;>
    simp [ConversationModel.notifyTyping, hT]

/-- C9 witness: the theorem applied at a conversation with no armed typing
timer receiving an isTyping signal at time 1000: the fifteen second clear
deadline is armed. -/
theorem notifyTyping_commits_witness :
    (ConversationModel.notifyTyping false true true 1000
        { typingTimer := none, commits := 0 }).typingTimer =
      some (1000 + 15 * 1000) :=
  (notifyTyping_commits_only_on_edges true 1000
      { typingTimer := none, commits := 0 }).2.2.1 rfl

/-- C10: removeOutgoingErrors keeps exactly the recorded errors that do not
match the requested recipient with a retryable name, and any error it
returns does match; when no recorded error matches, even if errors of
other kinds exist for that recipient, resend dispatches nothing and leaves
all recorded errors in place; and every dispatch of resend targets only the
requested recipient. -/
theorem resend_only_matching_errors (number : String)
    (isUs : String → Bool) (ourNumber : String) (now : Nat)
    (conv : ConvInfo) (u : Except ErrorRec Unit) (m : MessageState) :
    ((MessageModel.removeOutgoingErrors number m).1.errors =
        m.errors.filter
          (fun e => !MessageModel.outgoingErrorMatches number e)) ∧
      (∀ e, (MessageModel.removeOutgoingErrors number m).2 = some e →
        MessageModel.outgoingErrorMatches number e = true) ∧
      ((∀ e ∈ m.errors,
          ¬MessageModel.outgoingErrorMatches number e = true) →
        (MessageModel.resend number isUs ourNumber now conv u m).2 = [] ∧
          (MessageModel.resend number isUs ourNumber now conv u
              m).1.errors = m.errors) ∧
      (∀ d ∈ (MessageModel.resend number isUs ourNumber now conv u m).2,
        ∀ r ∈ dispatchTargets d, r = number) := by
  have hpart : (MessageModel.removeOutgoingErrors number m).1.errors =
      m.errors.filter
        (fun e => !MessageModel.outgoingErrorMatches number e) := by
    unfold MessageModel.removeOutgoingErrors
    rw [List.partition_eq_filter_filter]
    rfl
  have hsnd : (MessageModel.removeOutgoingErrors number m).2 =
      (m.errors.filter
        (MessageModel.outgoingErrorMatches number)).head? := by
    unfold MessageModel.removeOutgoingErrors
    rw [List.partition_eq_filter_filter]
  refine ⟨hpart, ?_, ?_, ?_⟩
  · intro e he
    rw [hsnd] at he
    have hmem : e ∈ m.errors.filter
        (MessageModel.outgoingErrorMatches number) :=
      List.mem_of_mem_head? (by simp [he])
    exact (List.mem_filter.mp hmem).2
  · intro hnone
    have hmatchnil : m.errors.filter
        (MessageModel.outgoingErrorMatches number) = [] :=
      List.filter_eq_nil_iff.mpr hnone
    have hsndnone : (MessageModel.removeOutgoingErrors number m).2 =
        none := by
      rw [hsnd, hmatchnil]
      rfl
    constructor
    · simp [MessageModel.resend, hsndnone]
    · simp only [MessageModel.resend, hsndnone]
      rw [hpart]
      refine List.filter_eq_self.mpr ?_
      intro e he
      simp [hnone e he]
  · intro d hd r hrd
    simp only [MessageModel.resend] at hd
    cases hsnd2 : (MessageModel.removeOutgoingErrors number m).2 with
    | none =>
      rw [hsnd2] at hd
      simp at hd
    | some e =>
      rw [hsnd2] at hd
      cases u with
      | error e2 => simp at hd
      | ok _ =>
        simp only [] at hd
        split_ifs at hd <;>
          · simp at hd
            subst hd
            simpa [dispatchTargets] using hrd

/-- A recorded error for the requested recipient whose name is not one of
the retryable kinds. -/
def nonRetryableErrorExample : ErrorRec :=
  { name := "HTTPError", number := some "recipientB"
    message := "request failed" }

/-- A message whose only recorded error for recipientB is of a non
retryable kind. -/
def resendMessageExample : MessageState :=
  { type := MessageModelType.outgoing
    errors := [nonRetryableErrorExample]
    read_by := []
    delivered := false
    delivered_to := []
    sent := false
    sent_to := []
    calculatingPoW := false
    expireTimer := 0
    expirationStartTimestamp := none
    recipients := ["recipientB"]
    unread := false
    sentSync := false
    synced := false
    sync := false }

/-- C10 witness: the theorem applied at a message whose only error for the
requested recipient is non retryable: resend dispatches nothing and the
recorded error stays in place. -/
theorem resend_only_matching_errors_witness :
    (MessageModel.resend "recipientB" (fun _ => false) "ourKey" 7
          { id := "group1", isPublicChat := false
            type := ConvType.groupChat, members := ["recipientB"] }
          (Except.ok ()) resendMessageExample).2 = [] ∧
      (MessageModel.resend "recipientB" (fun _ => false) "ourKey" 7
          { id := "group1", isPublicChat := false
            type := ConvType.groupChat, members := ["recipientB"] }
          (Except.ok ()) resendMessageExample).1.errors =
        resendMessageExample.errors :=
  (resend_only_matching_errors "recipientB" (fun _ => false) "ourKey" 7
      { id := "group1", isPublicChat := false
        type := ConvType.groupChat, members := ["recipientB"] }
      (Except.ok ()) resendMessageExample).2.2.1 (by decide)

end LokiSpec
